import Mathlib

/-!
Verification of the hey-apm synthetic-traffic generator against its design
specification. Go strings and byte slices are embedded as lists of
characters and lists of naturals; Go int values as Int; stateful code as
explicit state passing or as step relations on explicit traces. Each
claim-level theorem carries a doc comment naming the claim it settles.
-/

/-- Go strings are embedded as lists of characters (byte-level detail of
UTF-8 is irrelevant to every claim). -/
abbrev Str := List Char

namespace HeyApm

namespace Agent

/-- Parsed view of an intake response body, as extracted by the aggregation
goroutine in NewTracer (agent/tracer.go lines 65 to 75): the numeric
accepted count and the message field of each entry of the errors array.
The accepted count is an exact numeric total. -/
structure Doc where
  accepted : Int
  errors : List Str
deriving DecidableEq

/-- TransportStats from agent/tracer.go lines 25 to 28: the running accepted
total and the deduplicated, insertion-ordered list of error messages. -/
structure TransportStats where
  Accepted : Int
  TopErrors : List Str
deriving DecidableEq

/-- Statistics update performed by the aggregation goroutine for one parsed
body (agent/tracer.go lines 69 to 75): add the accepted count and append
each message not already present. -/
def updateStats (s : TransportStats) (d : Doc) : TransportStats :=
  { Accepted := s.Accepted + d.accepted
    TopErrors := d.errors.foldl
      (fun ts e => if ts.contains e then ts else ts ++ [e]) s.TopErrors }

/-- Outcome of running the aggregation goroutine over a finite queue of
bodies: final statistics, how many wg.Done calls were made, whether the
goroutine returned early, and the queued bodies it never processed. -/
structure AggOutcome (β : Type) where
  stats : TransportStats
  dones : Nat
  aborted : Bool
  leftover : List β
deriving DecidableEq

/-- The aggregation goroutine started by NewTracer (agent/tracer.go lines
62 to 80), run over the sequence of bodies received from the channel, with
JSON decoding abstracted as a parse function. On a body that fails to
parse the goroutine executes return: it stops, leaving the remaining
queued bodies unprocessed and issuing no wg.Done call for the failing
body. On a body that parses it updates the statistics and calls wg.Done. -/
def aggLoop (parse : β → Option Doc) (s : TransportStats) (dones : Nat) :
    List β → AggOutcome β
  | [] => ⟨s, dones, false, []⟩
  | b :: rest =>
    match parse b with
    | none => ⟨s, dones, true, rest⟩
    | some d => aggLoop parse (updateStats s d) (dones + 1) rest

/-- Side effects performed by roundTripper.RoundTrip once the response body
has been read successfully (agent/tracer.go lines 110 to 113), in program
order: send the body on the aggregation channel, increment the WaitGroup
counter, reconstruct the response body for the SDK. -/
inductive RTEvent
  | enqueue
  | wgAdd
  | restoreBody
deriving DecidableEq

/-- Program-order event sequence of the harvesting branch of
roundTripper.RoundTrip (agent/tracer.go lines 110 to 113). -/
def roundTripHarvestEvents : List RTEvent :=
  [RTEvent.enqueue, RTEvent.wgAdd, RTEvent.restoreBody]

/-- Events visible during Tracer.Close (agent/tracer.go lines 30 to 35)
interleaved with the aggregation goroutine: a wg.Done call by the
goroutine, the return of wg.Wait inside Close, and close of the
aggregation channel. -/
inductive CloseEv
  | done
  | waitRet
  | closeChan
deriving DecidableEq

/-- Step relation embedding Tracer.Close (agent/tracer.go lines 30 to 35)
run with n outstanding harvested responses: while the WaitGroup counter is
positive only wg.Done events can occur; wg.Wait returns exactly when the
counter reaches zero, and close of the channel is the next and final
action of Close. -/
inductive CloseTrace : Nat → List CloseEv → Prop
  | finish : CloseTrace 0 [CloseEv.waitRet, CloseEv.closeChan]
  | step (n : Nat) (tr : List CloseEv) (h : CloseTrace n tr) :
      CloseTrace (n + 1) (CloseEv.done :: tr)

end Agent

namespace Work

/-- Event type constant Transaction = 0 from part_001 lines 22 to 25. -/
def Transaction : Int := 0

/-- Event type constant Error = 1 from part_001 lines 22 to 25. -/
def ErrorKind : Int := 1

/-- Workload from part_001 lines 27 to 35. Frequency is the pacing interval
in nanoseconds. -/
structure Workload where
  EventType : Int
  Limit : Int
  Frequency : Int
  MaxStructs : Int
  MinStructs : Int
deriving DecidableEq

/-- Participants assembled by Run (part_001 lines 46 to 67): one generator
task per workload admitted by the Limit check, then the timeout watchdog
when runTimeout is positive, then the interrupt watchdog. -/
inductive Participant
  | generator (wk : Workload)
  | timeoutWatchdog
  | interruptWatchdog
deriving DecidableEq

/-- Participant list built by Run (part_001 lines 46 to 67): a generator is
added only for workloads with Limit strictly positive, in workload order;
the timeout watchdog is added when runTimeout is positive; the interrupt
watchdog is always added last. -/
def runParticipants (runTimeout : Int) (workload : List Workload) :
    List Participant :=
  (workload.filter (fun wk => decide (0 < wk.Limit))).map Participant.generator
    ++ (if 0 < runTimeout then [Participant.timeoutWatchdog] else [])
    ++ [Participant.interruptWatchdog]

/-- The errors generator loop from part_001 lines 150 to 164, run over a
finite stream of random draws (rand.Intn n is modelled as an arbitrary
draw reduced mod n, which is exactly its range of values). Each pulse
emits one generated error whose frame count is
draw mod (framesMax - framesMin + 1) + framesMin; the loop stops once the
limit is reached, checking sent against limit before consuming a pulse.
Returns the emitted frame counts and the number of pulses consumed. -/
def errorsGen (framesMin framesMax : Nat) (limit : Int) :
    List Nat → List Nat × Nat
  | [] => ([], 0)
  | k :: rest =>
    if 0 < limit then
      let r := errorsGen framesMin framesMax (limit - 1) rest
      ((k % (framesMax - framesMin + 1) + framesMin) :: r.1, r.2 + 1)
    else ([], 0)

/-- The transactions generator loop from part_001 lines 91 to 124, with the
same loop shape as the errors generator: each consumed pulse emits one
transaction whose span count is draw mod (spanMax - spanMin + 1) + spanMin.
Returns the emitted span counts and the number of pulses consumed. -/
def transactionsGen (spanMin spanMax : Nat) (limit : Int) :
    List Nat → List Nat × Nat
  | [] => ([], 0)
  | k :: rest =>
    if 0 < limit then
      let r := transactionsGen spanMin spanMax (limit - 1) rest
      ((k % (spanMax - spanMin + 1) + spanMin) :: r.1, r.2 + 1)
    else ([], 0)

/-- Stack frame as built by generatedErr.StackTrace (part_001 lines 138
to 148). -/
structure Frame where
  File : Str
  Function : Str
  Line : Nat
deriving DecidableEq

/-- StackTrace of a generated error (part_001 lines 138 to 148): exactly
frames entries, the i-th carrying line marker i + 100. -/
def stackTrace (frames : Nat) : List Frame :=
  (List.range frames).map (fun i => ⟨"fake.go".data, "oops".data, i + 100⟩)

/-- Inputs that can wake the interrupt watchdog (part_001 lines 177 to
189): the shared done channel fires, or an operating-system interrupt
arrives (carrying its signal description). -/
inductive SignalInput
  | doneFired
  | interrupt (sig : Str)
deriving DecidableEq

/-- Return value of the handleSignals participant (part_001 lines 177 to
189): nil on the done branch, a non-nil error built from the signal
description on the interrupt branch. -/
def handleSignals : SignalInput → Option Str
  | SignalInput.doneFired => none
  | SignalInput.interrupt sig => some sig

end Work

namespace TargetPkg

/-- Embedding of strings.HasSuffix. -/
def hasSuffix (s suffix : Str) : Bool := suffix.isSuffixOf s

/-- Embedding of strings.TrimSuffix: when s ends with the suffix, drop that
many trailing characters, else return s unchanged. -/
def trimSuffix (s suffix : Str) : Str :=
  if hasSuffix s suffix then s.take (s.length - suffix.length) else s

/-- Default user agent constant from part_000 line 19. -/
def defaultUserAgent : Str := "hey-apm/1.0".data

/-- BodyConfig from part_000 lines 36 to 38. -/
structure BodyConfig where
  NumErrors : Int
  NumTransactions : Int
  NumSpans : Int
  NumFrames : Int
deriving DecidableEq

/-- Config from part_000 lines 21 to 34. Durations are nanosecond counts;
Throttle is a numeric rate (held exactly here, set from an int by the
Throttle option); the header is a multimap in insertion order, as produced
by http.Header.Add. -/
structure Config where
  NumAgents : Int
  Throttle : Int
  Pause : Int
  MaxRequests : Int
  RequestTimeout : Int
  RunTimeout : Int
  Endpoint : Str
  SecretToken : Str
  Stream : Bool
  Body : BodyConfig
  DisableCompression : Bool
  DisableKeepAlives : Bool
  DisableRedirects : Bool
  Header : List (Str × Str)
deriving DecidableEq

/-- defaultCfg from part_000 lines 47 to 55: unbounded max requests
(math.MaxInt32), a 10 second request timeout in nanoseconds, the fixed
intake endpoint, an empty body configuration and an empty header. -/
def defaultCfg : Config :=
  { NumAgents := 0
    Throttle := 0
    Pause := 0
    MaxRequests := 2147483647
    RequestTimeout := 10000000000
    RunTimeout := 0
    Endpoint := "/intake/v2/events".data
    SecretToken := "".data
    Stream := false
    Body := ⟨0, 0, 0, 0⟩
    DisableCompression := false
    DisableKeepAlives := false
    DisableRedirects := false
    Header := [] }

/-- Target from part_000 lines 40 to 45. The URL ring is embedded as the
rotation list starting at the current position; the body is a byte
payload. -/
structure Target where
  URLs : List Str
  Method : Str
  Body : List Nat
  Config : Config
deriving DecidableEq

/-- OptionFunc from part_000 line 86, embedded as a function from the
configuration to the mutated configuration and an optional error (a Go
option mutates the config in place and may also fail, in which case the
fields it assigned keep their assigned values). -/
def OptionFunc : Type := Config → Config × Option Str

/-- Embedding of with from part_000 lines 88 to 93: when an error is
already present the option is not applied and the error is returned
unchanged; otherwise the option runs. -/
def withOpt (c : Config) (f : OptionFunc) (err : Option Str) :
    Config × Option Str :=
  match err with
  | some e => (c, some e)
  | none => f c

/-- The option-application loop of NewTargetFromOptions (part_000 lines 74
to 76): fold the options in order through withOpt. -/
def applyOptions (c : Config) (err : Option Str) :
    List OptionFunc → Config × Option Str
  | [] => (c, err)
  | f :: rest =>
    let r := withOpt c f err
    applyOptions r.1 r.2 rest

/-- buildBody from part_000 lines 57 to 59, with the external
payload-composition collaborator (compose.Compose, out of scope) passed in
as a function of the body configuration. -/
def buildBody (compose : BodyConfig → List Nat) (c : Config) : List Nat :=
  compose c.Body

/-- NewTargetFromOptions from part_000 lines 71 to 84: start from the
default configuration, apply the options in order with error
short-circuiting, build the body once, normalize every destination by
trimming one trailing slash and appending the configured endpoint (ring
order is the list order), and return the constructed target together with
the first option error. -/
def NewTargetFromOptions (compose : BodyConfig → List Nat) (urls : List Str)
    (opts : List OptionFunc) : Target × Option Str :=
  let r := applyOptions defaultCfg none opts
  ({ URLs := urls.map (fun u => trimSuffix u "/".data ++ r.1.Endpoint)
     Method := "POST".data
     Body := buildBody compose r.1
     Config := r.1 }, r.2)

/-- Embedding of http.Header.Add: append one key-value pair. -/
def headerAdd (h : List (Str × Str)) (k v : Str) : List (Str × Str) :=
  h ++ [(k, v)]

/-- Membership test of a header key, as used by the User-Agent check in
GetWork (part_000 line 185). -/
def headerHasKey (h : List (Str × Str)) (k : Str) : Bool :=
  h.any (fun p => p.1 == k)

/-- Number of header entries recorded under a given key and value. -/
def countHeader (h : List (Str × Str)) (k v : Str) : Nat :=
  (h.filter (fun p => decide (p.1 = k) && decide (p.2 = v))).length

/-- Request descriptor handed to the external dispatch engine by GetWork
(part_000 lines 208 to 240): either branch carries the method, the
destination rotation, the headers and the post-compression body. -/
structure WorkReq where
  Method : Str
  URLs : List Str
  Header : List (Str × Str)
  RequestBody : List Nat
  Stream : Bool
deriving DecidableEq

/-- Target.GetWork from part_000 lines 182 to 241, with the gzip codec
(external collaborator) passed in as a function on byte payloads. In
order: add the default User-Agent unless the header already has one, add
the Authorization header, mark the content type when the body is
non-empty, and unless compression is disabled replace the body in place
with its gzip encoding and record one Content-Encoding gzip header; then
build the request descriptor from the mutated target. Returns the mutated
target and the descriptor. -/
def GetWork (gz : List Nat → List Nat) (t : Target) : Target × WorkReq :=
  let h0 := if headerHasKey t.Config.Header "User-Agent".data then
      t.Config.Header
    else headerAdd t.Config.Header "User-Agent".data defaultUserAgent
  let h1 := headerAdd h0 "Authorization".data
    ("Bearer ".data ++ t.Config.SecretToken)
  let h2 := if 0 < t.Body.length then
      headerAdd h1 "Content-Type".data "application/x-ndjson".data
    else h1
  let body2 := if t.Config.DisableCompression then t.Body else gz t.Body
  let h3 := if t.Config.DisableCompression then h2
    else headerAdd h2 "Content-Encoding".data "gzip".data
  let t2 : Target :=
    { t with Body := body2, Config := { t.Config with Header := h3 } }
  (t2, { Method := t2.Method
         URLs := t2.URLs
         Header := h3
         RequestBody := body2
         Stream := t2.Config.Stream })

end TargetPkg

namespace MainProg

/-- Modelled from the spec: util.Get, one of the out-of-scope helper
accessors (the spec treats duration and number parsing helpers and safe
field lookup as external collaborators); it returns the i-th field of a
row, or the empty string when the row is too short. -/
def Get (i : Nat) (line : List Str) : Str := line.getD i []

/-- Modelled from the spec: util.Aton, the number-parsing helper with
error chaining (out of scope in src; its shape follows util.Atod in
util/timec.go lines 12 to 18): an already-present error is returned
unchanged and the field is not parsed; otherwise the field is parsed by
the strconv.Atoi collaborator, a failure reporting the offending field. -/
def Aton (atoi : Str → Option Int) (attr : Str) (err : Option Str) :
    Int × Option Str :=
  match err with
  | some e => (0, some e)
  | none =>
    match atoi attr with
    | some n => (n, none)
    | none => (0, some attr)

/-- Embedding of util.Atod (util/timec.go lines 12 to 18) with the
time.ParseDuration collaborator passed in: an already-present error is
returned unchanged, otherwise the field is parsed as a duration in
nanoseconds, a failure reporting the offending field. -/
def Atod (parseDur : Str → Option Int) (attr : Str) (err : Option Str) :
    Int × Option Str :=
  match err with
  | some e => (0, some e)
  | none =>
    match parseDur attr with
    | some n => (n, none)
    | none => (0, some attr)

/-- Modelled from the spec: the strconv.Atoi collaborator (number parsing
helper, out of scope in src); parses a non-empty string of decimal
digits. -/
def atoiM (s : Str) : Option Int :=
  if s = [] then none
  else if s.all (fun c => c.isDigit) then
    some (s.foldl (fun acc c => acc * 10 + ((c.toNat : Int) - 48)) 0)
  else none

/-- Modelled from the spec: the time.ParseDuration collaborator (duration
parsing helper, out of scope in src); accepts a decimal number of
nanoseconds written with the suffix ns. -/
def parseDurM (s : Str) : Option Int :=
  if TargetPkg.hasSuffix s "ns".data then
    atoiM (TargetPkg.trimSuffix s "ns".data)
  else none

/-- Field-parsing chain for one row of the workload file (main.go lines 94
to 99), starting from the error value in scope when the row begins: event
type, limit, frequency, max structures, min structures, each chained
through the error of the previous field. Returns the workload built from
the parsed fields and the final chained error. -/
def parseLine (atoi parseDur : Str → Option Int) (err0 : Option Str)
    (line : List Str) : Work.Workload × Option Str :=
  let p1 := Aton atoi (Get 0 line) err0
  let p2 := Aton atoi (Get 1 line) p1.2
  let p3 := Atod parseDur (Get 2 line) p2.2
  let p4 := Aton atoi (Get 3 line) p3.2
  let p5 := Aton atoi (Get 4 line) p4.2
  (⟨p1.1, p2.1, p3.1, p4.1, p5.1⟩, p5.2)

/-- The row loop of parseFile (main.go lines 93 to 104). Each iteration
declares its own err with a short variable declaration, shadowing the
function-level err returned by ReadAll; the row chain therefore starts
from the outer err each iteration, the break on a malformed row tests the
loop-local err, and the return statement after the loop returns the outer
err, not the row error. Returns the kept workloads and the returned
error. -/
def parseFileLoop (atoi parseDur : Str → Option Int) (outerErr : Option Str) :
    List (List Str) → List Work.Workload × Option Str
  | [] => ([], outerErr)
  | line :: rest =>
    let r := parseLine atoi parseDur outerErr line
    match r.2 with
    | some _ => ([], outerErr)
    | none =>
      let t := parseFileLoop atoi parseDur outerErr rest
      (r.1 :: t.1, t.2)

/-- parseFile from main.go lines 86 to 106, after the file has been read:
the csv ReadAll result (rows plus optional read error) is fed to the row
loop, whose returned error is the ReadAll error because of the shadowing
described at parseFileLoop. -/
def parseFile (atoi parseDur : Str → Option Int) (lines : List (List Str))
    (readErr : Option Str) : List Work.Workload × Option Str :=
  parseFileLoop atoi parseDur readErr lines

end MainProg

/-! Helper lemmas shared by the claim theorems. -/

theorem applyOptions_absorb (opts : List TargetPkg.OptionFunc)
    (c : TargetPkg.Config) (e : Str) :
    TargetPkg.applyOptions c (some e) opts = (c, some e) := by
  induction opts with
  | nil => rfl
  | cons f rest ih => simpa [TargetPkg.applyOptions, TargetPkg.withOpt] using ih

theorem applyOptions_append (l1 l2 : List TargetPkg.OptionFunc)
    (c : TargetPkg.Config) (err : Option Str) :
    TargetPkg.applyOptions c err (l1 ++ l2) =
      TargetPkg.applyOptions (TargetPkg.applyOptions c err l1).1
        (TargetPkg.applyOptions c err l1).2 l2 := by
  induction l1 generalizing c err with
  | nil => rfl
  | cons f rest ih => simp [TargetPkg.applyOptions, ih]

theorem countHeader_append (h1 h2 : List (Str × Str)) (k v : Str) :
    TargetPkg.countHeader (h1 ++ h2) k v =
      TargetPkg.countHeader h1 k v + TargetPkg.countHeader h2 k v := by
  simp [TargetPkg.countHeader, List.filter_append]

theorem countHeader_add_ne {h : List (Str × Str)} {k v k2 v2 : Str}
    (hne : k2 ≠ k) :
    TargetPkg.countHeader (TargetPkg.headerAdd h k2 v2) k v =
      TargetPkg.countHeader h k v := by
  simp [TargetPkg.headerAdd, countHeader_append, TargetPkg.countHeader,
    List.filter, hne]

theorem countHeader_add_same (h : List (Str × Str)) (k v : Str) :
    TargetPkg.countHeader (TargetPkg.headerAdd h k v) k v =
      TargetPkg.countHeader h k v + 1 := by
  simp [TargetPkg.headerAdd, countHeader_append, TargetPkg.countHeader,
    List.filter]

theorem errorsGen_mem (mn mx : Nat) (limit : Int) (draws : List Nat) (f : Nat)
    (hf : f ∈ (Work.errorsGen mn mx limit draws).1) :
    ∃ k, f = k % (mx - mn + 1) + mn := by
  induction draws generalizing limit with
  | nil => simp [Work.errorsGen] at hf
  | cons k int ih =>
    by_cases h0 : 0 < limit
    · simp [Work.errorsGen, h0] at hf
      rcases hf with h | h
      · exact ⟨k, h⟩
      · exact ih _ h
    · simp [Work.errorsGen, h0] at hf

/-! Claim theorems. -/

/-- C1: the specification claims that a harvested response body that fails
to parse is silently skipped by the background aggregation task, which
then continues with later responses, never aborting. The code instead
executes return inside the aggregation goroutine (agent/tracer.go lines 66
to 68), ending the task: evaluated on a queue holding an unparsable body
followed by a parsable one reporting accepted = 1, the task aborts with
the statistics untouched, zero wg.Done calls, and the second body left
unprocessed, whereas the same parsable body alone yields accepted = 1 and
one wg.Done call. -/
theorem aggLoop_aborts_on_unparsable_body :
    Agent.aggLoop (fun n : Nat => if n = 0 then none else some ⟨1, []⟩)
        ⟨0, []⟩ 0 [0, 1] = ⟨⟨0, []⟩, 0, true, [1]⟩ ∧
    Agent.aggLoop (fun n : Nat => if n = 0 then none else some ⟨1, []⟩)
        ⟨0, []⟩ 0 [1] = ⟨⟨1, []⟩, 1, false, []⟩ := by decide

/-- C2: the specification claims the outstanding-work counter is
incremented before the harvested body is queued. In the code the send on
the aggregation channel (agent/tracer.go line 110) strictly precedes the
wg.Add call (line 111), so the enqueue comes first and the increment does
not precede it. -/
theorem roundTrip_enqueues_before_increment :
    Agent.roundTripHarvestEvents.indexOf Agent.RTEvent.enqueue <
      Agent.roundTripHarvestEvents.indexOf Agent.RTEvent.wgAdd ∧
    ¬ Agent.roundTripHarvestEvents.indexOf Agent.RTEvent.wgAdd <
        Agent.roundTripHarvestEvents.indexOf Agent.RTEvent.enqueue := by
  decide

/-- C3: every execution of Tracer.Close with n outstanding harvested
responses consists of exactly the n counter decrements, then the return of
the blocking wait (possible only at counter zero), then the close of the
aggregation channel as the final action; hence the counter reaching zero
happens before the channel close in every trace. -/
theorem close_waits_for_zero_before_channel_close (n : Nat)
    (tr : List Agent.CloseEv) (h : Agent.CloseTrace n tr) :
    tr = List.replicate n Agent.CloseEv.done ++
      [Agent.CloseEv.waitRet, Agent.CloseEv.closeChan] := by
  induction h with
  | finish => rfl
  | step n tr h ih => simp [List.replicate_succ, ih]

/-- Witness for C3 at n = 2: the only trace is two decrements, the wait
return, then the channel close. -/
theorem close_waits_for_zero_before_channel_close_witness :
    [Agent.CloseEv.done, Agent.CloseEv.done, Agent.CloseEv.waitRet,
        Agent.CloseEv.closeChan] =
      List.replicate 2 Agent.CloseEv.done ++
        [Agent.CloseEv.waitRet, Agent.CloseEv.closeChan] :=
  close_waits_for_zero_before_channel_close 2 _
    (Agent.CloseTrace.step 1 _ (Agent.CloseTrace.step 0 _
      Agent.CloseTrace.finish))

/-- C4: a workload whose limit is zero is admitted by no generator task in
the participant list assembled by Run, and either generator loop run with
a zero limit emits no event and consumes no pulse. -/
theorem zero_limit_workload_skipped (runTimeout : Int)
    (wl : List Work.Workload) (wk : Work.Workload) (h : wk.Limit = 0) :
    Work.Participant.generator wk ∉ Work.runParticipants runTimeout wl ∧
    ∀ (mn mx : Nat) (draws : List Nat),
      Work.errorsGen mn mx wk.Limit draws = ([], 0) ∧
      Work.transactionsGen mn mx wk.Limit draws = ([], 0) := by
  constructor
  · intro hmem
    unfold Work.runParticipants at hmem
    rcases List.mem_append.mp hmem with hfront | hsig
    · rcases List.mem_append.mp hfront with hgen | htmo
      · rcases List.mem_map.mp hgen with ⟨wk2, hwk2, heq⟩
        have heq2 : wk2 = wk := by injection heq
        have hpos := (List.mem_filter.mp hwk2).2
        rw [heq2, h] at hpos
        exact absurd hpos (by decide)
      · by_cases hrt : (0 : Int) < runTimeout
        · rw [if_pos hrt] at htmo
          simp at htmo
        · rw [if_neg hrt] at htmo
          simp at htmo
    · simp at hsig
  · intro mn mx draws
    cases draws with
    | nil => constructor <;> simp [Work.errorsGen, Work.transactionsGen]
    | cons a l =>
      constructor <;> simp [Work.errorsGen, Work.transactionsGen, h]

/-- Witness for C4 on the concrete workload with limit zero. -/
theorem zero_limit_workload_skipped_witness :
    Work.Participant.generator ⟨1, 0, 1, 5, 1⟩ ∉
      Work.runParticipants 0 [⟨1, 0, 1, 5, 1⟩] ∧
    Work.errorsGen 1 5 0 [9] = ([], 0) ∧
    Work.transactionsGen 1 5 0 [9] = ([], 0) :=
  ⟨(zero_limit_workload_skipped 0 [⟨1, 0, 1, 5, 1⟩] ⟨1, 0, 1, 5, 1⟩ rfl).1,
   ((zero_limit_workload_skipped 0 [⟨1, 0, 1, 5, 1⟩] ⟨1, 0, 1, 5, 1⟩ rfl).2
      1 5 [9]).1,
   ((zero_limit_workload_skipped 0 [⟨1, 0, 1, 5, 1⟩] ⟨1, 0, 1, 5, 1⟩ rfl).2
      1 5 [9]).2⟩

/-- C5: with bounds satisfying max at least min, every error emitted by the
errors generator has a frame count inside the bounds, its fabricated stack
trace has exactly that many frames, and the line markers inside one trace
are strictly increasing. -/
theorem errors_frames_in_bounds (mn mx : Nat) (hb : mn ≤ mx) (limit : Int)
    (draws : List Nat) (f : Nat)
    (hf : f ∈ (Work.errorsGen mn mx limit draws).1) :
    mn ≤ f ∧ f ≤ mx ∧ (Work.stackTrace f).length = f ∧
      List.Pairwise (fun a b : Work.Frame => a.Line < b.Line)
        (Work.stackTrace f) := by
  obtain ⟨k, hk⟩ := errorsGen_mem mn mx limit draws f hf
  have hlt : k % (mx - mn + 1) < mx - mn + 1 := Nat.mod_lt _ (by omega)
  refine ⟨by omega, by omega, by simp [Work.stackTrace], ?_⟩
  unfold Work.stackTrace
  rw [List.pairwise_map]
  refine (List.pairwise_lt_range f).imp ?_
  intro a b hab
  show a + 100 < b + 100
  omega

/-- Witness for C5 with bounds 1 and 3, limit 2 and draw 5: the emitted
frame count 3 lies in the bounds and its trace is well formed. -/
theorem errors_frames_in_bounds_witness :
    (1 ≤ 3 ∧ (3 : Nat) ∈ (Work.errorsGen 1 3 2 [5]).1) ∧
    1 ≤ 3 ∧ 3 ≤ 3 ∧ (Work.stackTrace 3).length = 3 ∧
      List.Pairwise (fun a b : Work.Frame => a.Line < b.Line)
        (Work.stackTrace 3) :=
  ⟨⟨by decide, by decide⟩,
   errors_frames_in_bounds 1 3 (by decide) 2 [5] 3 (by decide)⟩

/-- C6 counterexample: the claim that a nil return from the interrupt
watchdog is impossible on every path is false, because the done branch of
handleSignals returns nil. -/
theorem handleSignals_nil_on_done :
    ¬ ∀ i : Work.SignalInput, Work.handleSignals i ≠ none :=
  fun h => h Work.SignalInput.doneFired rfl

/-- C6 amended: the interrupt watchdog converts an external interrupt into
a non-nil error result; a nil return occurs exactly on the cancellation
branch, when the shared done signal fires first. -/
theorem handleSignals_interrupt_errors :
    (∀ sig : Str,
      Work.handleSignals (Work.SignalInput.interrupt sig) = some sig) ∧
    Work.handleSignals Work.SignalInput.doneFired = none :=
  ⟨fun _ => rfl, rfl⟩

/-- C7: for a target with compression enabled, one GetWork call replaces
the body with the gzip encoding of the pre-call body applied exactly once,
hands that compressed body to the request descriptor, and records exactly
one additional Content-Encoding gzip header entry. -/
theorem getWork_compresses_once (gz : List Nat → List Nat)
    (t : TargetPkg.Target) (h : t.Config.DisableCompression = false) :
    ((TargetPkg.GetWork gz t).1).Body = gz t.Body ∧
    ((TargetPkg.GetWork gz t).2).RequestBody = gz t.Body ∧
    TargetPkg.countHeader ((TargetPkg.GetWork gz t).1).Config.Header
        "Content-Encoding".data "gzip".data =
      TargetPkg.countHeader t.Config.Header
        "Content-Encoding".data "gzip".data + 1 := by
  have hct : ("Content-Type".data : Str) ≠ "Content-Encoding".data := by
    decide
  have hau : ("Authorization".data : Str) ≠ "Content-Encoding".data := by
    decide
  have hug : ("User-Agent".data : Str) ≠ "Content-Encoding".data := by
    decide
  refine ⟨by simp [TargetPkg.GetWork, h], by simp [TargetPkg.GetWork, h], ?_⟩
  by_cases hb : 0 < t.Body.length <;>
    by_cases hua :
      TargetPkg.headerHasKey t.Config.Header "User-Agent".data = true <;>
      simp [TargetPkg.GetWork, h, hb, hua, countHeader_add_same,
        countHeader_add_ne hct, countHeader_add_ne hau,
        countHeader_add_ne hug]

/-- Witness for C7 on a concrete uncompressed target and a concrete
codec. -/
theorem getWork_compresses_once_witness :
    ((TargetPkg.NewTargetFromOptions (fun _ => [1, 2]) []
        []).1).Config.DisableCompression = false ∧
    ((TargetPkg.GetWork (fun b => 7 :: b)
        ((TargetPkg.NewTargetFromOptions (fun _ => [1, 2]) [] []).1)).1).Body =
      (fun b => 7 :: b)
        ((TargetPkg.NewTargetFromOptions (fun _ => [1, 2]) [] []).1).Body ∧
    ((TargetPkg.GetWork (fun b => 7 :: b)
        ((TargetPkg.NewTargetFromOptions (fun _ => [1, 2]) []
          []).1)).2).RequestBody =
      (fun b => 7 :: b)
        ((TargetPkg.NewTargetFromOptions (fun _ => [1, 2]) [] []).1).Body ∧
    TargetPkg.countHeader
        ((TargetPkg.GetWork (fun b => 7 :: b)
          ((TargetPkg.NewTargetFromOptions (fun _ => [1, 2]) []
            []).1)).1).Config.Header
        "Content-Encoding".data "gzip".data =
      TargetPkg.countHeader
        ((TargetPkg.NewTargetFromOptions (fun _ => [1, 2]) []
          []).1).Config.Header
        "Content-Encoding".data "gzip".data + 1 :=
  ⟨rfl, getWork_compresses_once (fun b => 7 :: b)
    ((TargetPkg.NewTargetFromOptions (fun _ => [1, 2]) [] []).1) rfl⟩

/-- C8: the target builder normalizes every destination by removing one
trailing slash when present (and only then) and appending the configured
endpoint, preserving list order; and the concrete destination list with
the default endpoint yields exactly the expected rotation. -/
theorem url_normalization :
    (∀ u : Str, TargetPkg.trimSuffix u "/".data =
      if TargetPkg.hasSuffix u "/".data then u.dropLast else u) ∧
    (∀ (compose : TargetPkg.BodyConfig → List Nat) (urls : List Str)
        (opts : List TargetPkg.OptionFunc),
      ((TargetPkg.NewTargetFromOptions compose urls opts).1).URLs =
        urls.map (fun u => TargetPkg.trimSuffix u "/".data ++
          ((TargetPkg.NewTargetFromOptions compose urls
            opts).1).Config.Endpoint)) ∧
    ((TargetPkg.NewTargetFromOptions (fun _ => [])
        ["http://a/".data, "http://b".data] []).1).URLs =
      ["http://a/intake/v2/events".data, "http://b/intake/v2/events".data] := by
  refine ⟨?_, fun _ _ _ => rfl, by decide⟩
  intro u
  simp [TargetPkg.trimSuffix, List.dropLast_eq_take]

/-- C9: the specification claims the first malformed row aborts ingestion
while prior validated rows are kept and returned alongside the error. The
loop keeps the prior rows and stops at the malformed row, but the
loop-local err introduced by the short variable declaration shadows the
function-level err, so the returned error is the ReadAll error: on a
readable file holding a valid row, a malformed row, then another valid
row, the second row carries a non-nil validation error, yet parseFile
returns only the first row together with a nil error. -/
theorem parseFile_drops_row_error :
    (MainProg.parseLine MainProg.atoiM MainProg.parseDurM none
        ["x".data, "10".data, "7ns".data, "5".data, "1".data]).2.isSome =
      true ∧
    MainProg.parseFile MainProg.atoiM MainProg.parseDurM
        [["1".data, "10".data, "7ns".data, "5".data, "1".data],
         ["x".data, "10".data, "7ns".data, "5".data, "1".data],
         ["0".data, "3".data, "7ns".data, "4".data, "2".data]] none =
      ([⟨1, 10, 7, 5, 1⟩], none) := by decide

/-- C10: once an option in the sequence fails, no later option is applied
to the configuration: the build outcome equals the outcome of the sequence
truncated right after the failing option, the returned error is that first
error, and a constructed target (built from the partially applied
configuration) is still returned. -/
theorem newTargetFromOptions_short_circuit
    (compose : TargetPkg.BodyConfig → List Nat) (urls : List Str)
    (pre post : List TargetPkg.OptionFunc) (bad : TargetPkg.OptionFunc)
    (c1 c2 : TargetPkg.Config) (e : Str)
    (h1 : TargetPkg.applyOptions TargetPkg.defaultCfg none pre = (c1, none))
    (h2 : bad c1 = (c2, some e)) :
    TargetPkg.NewTargetFromOptions compose urls (pre ++ bad :: post) =
      TargetPkg.NewTargetFromOptions compose urls (pre ++ [bad]) ∧
    (TargetPkg.NewTargetFromOptions compose urls (pre ++ bad :: post)).2 =
      some e ∧
    ((TargetPkg.NewTargetFromOptions compose urls
        (pre ++ bad :: post)).1).Config = c2 := by
  have key : ∀ post2 : List TargetPkg.OptionFunc,
      TargetPkg.applyOptions TargetPkg.defaultCfg none (pre ++ bad :: post2) =
        (c2, some e) := by
    intro post2
    rw [applyOptions_append, h1]
    show TargetPkg.applyOptions
      (TargetPkg.withOpt c1 bad none).1 (TargetPkg.withOpt c1 bad none).2
      post2 = (c2, some e)
    simp only [TargetPkg.withOpt, h2]
    exact applyOptions_absorb post2 c2 e
  refine ⟨?_, ?_, ?_⟩ <;>
    simp only [TargetPkg.NewTargetFromOptions, key post, key []]

/-- Witness for C10: an empty prefix, one failing option and one later
option that would set the agent count; the later option is not applied and
the error of the failing option is returned with the constructed
target. -/
theorem newTargetFromOptions_short_circuit_witness :
    TargetPkg.NewTargetFromOptions (fun _ => []) []
        ([] ++ (fun c => (c, some "boom".data)) ::
          [fun c => ({ c with NumAgents := 9 }, none)]) =
      TargetPkg.NewTargetFromOptions (fun _ => [])
        [] ([] ++ [fun c => (c, some "boom".data)]) ∧
    (TargetPkg.NewTargetFromOptions (fun _ => []) []
        ([] ++ (fun c => (c, some "boom".data)) ::
          [fun c => ({ c with NumAgents := 9 }, none)])).2 =
      some "boom".data ∧
    ((TargetPkg.NewTargetFromOptions (fun _ => []) []
        ([] ++ (fun c => (c, some "boom".data)) ::
          [fun c => ({ c with NumAgents := 9 }, none)])).1).Config =
      TargetPkg.defaultCfg :=
  newTargetFromOptions_short_circuit (fun _ => []) [] []
    [fun c => ({ c with NumAgents := 9 }, none)]
    (fun c => (c, some "boom".data)) TargetPkg.defaultCfg
    TargetPkg.defaultCfg "boom".data rfl rfl

end HeyApm
